import Mathlib

/-!
Shallow embedding of `src/verify_math.py`, a rent-vs-sell verification
script.  All arithmetic in the script that the claims touch is exact
rational arithmetic (Python floats restricted to rational operations with
integer exponents), so the embedding is over `ℚ`.  The one exception is
the home-value appreciation curve, which uses a real power with a
fractional exponent; since none of the claims depend on its value, the
year loop is parameterised by an arbitrary `hv : ℕ → ℚ` standing for the
per-year home value.
-/

namespace VerifyMath

/-- Embedding of `calculate_remaining_balance` (src/verify_math.py lines
43-52).  `total_months` and `months_paid` are natural numbers, as at every
call site of the script.  Note that the `max 0` clamp is applied only in
the nonzero-rate branch, exactly as in the source. -/
def calculate_remaining_balance (principal monthly_rate : ℚ)
    (total_months months_paid : ℕ) : ℚ :=
  if monthly_rate = 0 then
    principal - (principal / total_months * months_paid)
  else
    let factor := (1 + monthly_rate) ^ total_months
    let paid_factor := (1 + monthly_rate) ^ months_paid
    let balance := principal * (factor - paid_factor) / (factor - 1)
    max 0 balance

/-- The factor `(1 + r)^n` exceeds 1 when the rate is positive and the
term is nonempty. -/
lemma one_lt_factor {r : ℚ} (hr : 0 < r) {n : ℕ} (hn : 0 < n) :
    1 < (1 + r) ^ n :=
  one_lt_pow (by linarith) hn.ne'

/-- Claim C1, as stated, is false: with monthly rate exactly 0,
months_paid = 11 exceeding total_months = 10 and principal 100, the
zero-rate branch returns -10 without any clamp. -/
theorem remaining_balance_zero_rate_overrun_negative :
    calculate_remaining_balance 100 0 10 11 < 0 := by
  norm_num [calculate_remaining_balance]

/-- Claim C1 (amended): the remaining balance is nonnegative for every
positive principal, nonnegative rate and positive term, provided the rate
is strictly positive or months_paid does not exceed the term; the `max 0`
clamp is present only in the nonzero-rate branch of the source. -/
theorem remaining_balance_nonneg (principal monthly_rate : ℚ)
    (total_months months_paid : ℕ)
    (hp : 0 < principal) (hr : 0 ≤ monthly_rate) (hn : 0 < total_months)
    (h : 0 < monthly_rate ∨ months_paid ≤ total_months) :
    0 ≤ calculate_remaining_balance principal monthly_rate total_months months_paid := by
  unfold calculate_remaining_balance
  by_cases hr0 : monthly_rate = 0
  · rw [if_pos hr0]
    rcases h with h | h
    · exact absurd (hr0 ▸ h) (lt_irrefl 0)
    · have hmn : (months_paid : ℚ) ≤ (total_months : ℚ) := Nat.cast_le.2 h
      have hn' : (0 : ℚ) < (total_months : ℚ) := by exact_mod_cast hn
      have : principal / total_months * months_paid ≤ principal := by
        rw [div_mul_eq_mul_div, div_le_iff hn']
        have := mul_le_mul_of_nonneg_left hmn hp.le
        linarith
      linarith
  · rw [if_neg hr0]
    exact le_max_left 0 _

/-- Witness for the amended claim C1 at principal 100, rate 0, term 10,
months paid 5. -/
theorem remaining_balance_nonneg_witness :
    (0 : ℚ) < 100 ∧ 0 ≤ calculate_remaining_balance 100 0 10 5 :=
  ⟨by norm_num,
    remaining_balance_nonneg 100 0 10 5 (by norm_num) le_rfl (by norm_num)
      (Or.inr (by norm_num))⟩

/-- Claim C6: the remaining balance is monotonically non-increasing in
months paid, for every positive principal, nonnegative rate and positive
term. -/
theorem remaining_balance_antitone (principal monthly_rate : ℚ)
    (total_months p1 p2 : ℕ)
    (hp : 0 < principal) (hr : 0 ≤ monthly_rate) (hn : 0 < total_months)
    (h12 : p1 ≤ p2) :
    calculate_remaining_balance principal monthly_rate total_months p2 ≤
      calculate_remaining_balance principal monthly_rate total_months p1 := by
  unfold calculate_remaining_balance
  by_cases hr0 : monthly_rate = 0
  · rw [if_pos hr0, if_pos hr0]
    have h12' : (p1 : ℚ) ≤ (p2 : ℚ) := Nat.cast_le.2 h12
    have hq : 0 ≤ principal / total_months :=
      div_nonneg hp.le (Nat.cast_nonneg _)
    have := mul_le_mul_of_nonneg_left h12' hq
    linarith
  · rw [if_neg hr0, if_neg hr0]
    have hrpos : 0 < monthly_rate := lt_of_le_of_ne hr (Ne.symm hr0)
    have hb : 1 ≤ 1 + monthly_rate := by linarith
    have hden : (0 : ℚ) < (1 + monthly_rate) ^ total_months - 1 := by
      have := one_lt_factor hrpos hn
      linarith
    have hpow : (1 + monthly_rate) ^ p1 ≤ (1 + monthly_rate) ^ p2 :=
      pow_le_pow_right hb h12
    have hnum : principal * ((1 + monthly_rate) ^ total_months - (1 + monthly_rate) ^ p2)
        ≤ principal * ((1 + monthly_rate) ^ total_months - (1 + monthly_rate) ^ p1) :=
      mul_le_mul_of_nonneg_left (by linarith) hp.le
    exact max_le_max le_rfl ((div_le_div_right hden).mpr hnum)

/-- Witness for claim C6 at principal 100, rate 0, term 10, months paid
3 and 7. -/
theorem remaining_balance_antitone_witness :
    calculate_remaining_balance 100 0 10 7 ≤
      calculate_remaining_balance 100 0 10 3 :=
  remaining_balance_antitone 100 0 10 3 7 (by norm_num) le_rfl (by norm_num)
    (by norm_num)

/-- Claim C7: with a strictly positive rate and months paid equal to the
total term, the remaining balance is exactly 0. -/
theorem remaining_balance_at_term_zero (principal monthly_rate : ℚ)
    (total_months : ℕ)
    (hp : 0 < principal) (hr : 0 < monthly_rate) (hn : 0 < total_months) :
    calculate_remaining_balance principal monthly_rate total_months total_months = 0 := by
  simp [calculate_remaining_balance, hr.ne']

/-- Witness for claim C7 at principal 1, rate 1, term 1. -/
theorem remaining_balance_at_term_zero_witness :
    calculate_remaining_balance 1 1 1 1 = 0 :=
  remaining_balance_at_term_zero 1 1 1 (by norm_num) (by norm_num) (by norm_num)

/-- Claim C8: with monthly rate exactly 0, the remaining balance equals
`principal * (1 - months_paid / total_months)` exactly. -/
theorem remaining_balance_zero_rate (principal : ℚ)
    (total_months months_paid : ℕ)
    (hp : 0 < principal) (hn : 0 < total_months) :
    calculate_remaining_balance principal 0 total_months months_paid
      = principal * (1 - (months_paid : ℚ) / (total_months : ℚ)) := by
  unfold calculate_remaining_balance
  rw [if_pos rfl]
  ring

/-- Witness for claim C8 at principal 100, term 10, months paid 5. -/
theorem remaining_balance_zero_rate_witness :
    calculate_remaining_balance 100 0 10 5
      = 100 * (1 - (5 : ℚ) / 10) :=
  remaining_balance_zero_rate 100 10 5 (by norm_num) (by norm_num)

/-- Claim C9: with months paid 0, the remaining balance equals the
principal, in both branches. -/
theorem remaining_balance_at_zero (principal monthly_rate : ℚ)
    (total_months : ℕ)
    (hp : 0 < principal) (hr : 0 ≤ monthly_rate) (hn : 0 < total_months) :
    calculate_remaining_balance principal monthly_rate total_months 0 = principal := by
  unfold calculate_remaining_balance
  by_cases hr0 : monthly_rate = 0
  · rw [if_pos hr0]
    simp
  · rw [if_neg hr0]
    have hrpos : 0 < monthly_rate := lt_of_le_of_ne hr (Ne.symm hr0)
    have hden : (0 : ℚ) < (1 + monthly_rate) ^ total_months - 1 := by
      have := one_lt_factor hrpos hn
      linarith
    simp only [pow_zero]
    rw [mul_div_assoc, div_self hden.ne', mul_one]
    exact max_eq_right hp.le

/-- Witness for claim C9 at principal 7, rate 1, term 2. -/
theorem remaining_balance_at_zero_witness :
    calculate_remaining_balance 7 1 2 0 = 7 :=
  remaining_balance_at_zero 7 1 2 (by norm_num) (by norm_num) (by norm_num)

/-- The scenario parameters of the script (src/verify_math.py lines
11-36), gathered into a record so the year loop can be stated for
arbitrary inputs.  `monthly_ownership_cost` is the derived sum of line
91, `annual_depreciation` the derived value of line 102, `elapsed` the
month count of line 55. -/
structure Inputs where
  purchase_price : ℚ
  original_loan_amount : ℚ
  monthly_rate : ℚ
  total_loan_months : ℕ
  monthly_ownership_cost : ℚ
  rental_price : ℚ
  annual_rent_increase : ℚ
  property_mgmt_fee : ℚ
  costs_to_rent : ℚ
  rental_tax_rate : ℚ
  annual_depreciation : ℚ
  selling_fees : ℚ
  costs_to_sell : ℚ
  capital_gains_tax : ℚ
  investment_return : ℚ
  years_to_hold : ℕ
  is_primary_residence : Bool
  elapsed : ℕ

/-- The two loop-carried accumulators of the year loop
(src/verify_math.py lines 112-113). -/
structure LoopState where
  cumulative_rental_cash_flow : ℚ
  cumulative_opportunity_cost : ℚ

/-- The accumulators before the first iteration:
`cumulative_rental_cash_flow = -costs_to_rent`,
`cumulative_opportunity_cost = 0` (lines 112-113). -/
def initState (I : Inputs) : LoopState :=
  { cumulative_rental_cash_flow := -I.costs_to_rent
    cumulative_opportunity_cost := 0 }

/-- The rental-scenario cash-flow computation of one iteration
(src/verify_math.py lines 125-133); it depends only on the inputs and the
year, not on the loop state. -/
def net_rental_cash_flow (I : Inputs) (year : ℕ) : ℚ :=
  let current_rent := I.rental_price * (1 + I.annual_rent_increase / 100) ^ year
  let annual_rental_income := current_rent * 12
  let annual_mgmt_fee := annual_rental_income * (I.property_mgmt_fee / 100)
  let annual_ownership_costs := I.monthly_ownership_cost * 12
  let gross_rental_profit := annual_rental_income - annual_mgmt_fee - annual_ownership_costs
  let taxable_rental_income := gross_rental_profit - I.annual_depreciation
  let rental_tax := max 0 (taxable_rental_income * (I.rental_tax_rate / 100))
  gross_rental_profit - rental_tax

/-- The values printed for one year of the loop (src/verify_math.py lines
115-194), including the updated accumulators. -/
structure Snapshot where
  home_value : ℚ
  loan_balance : ℚ
  equity : ℚ
  net_rental_cash_flow : ℚ
  year_cash_flow : ℚ
  cumulative_rental_cash_flow : ℚ
  cumulative_opportunity_cost : ℚ
  rental_net_worth : ℚ
  sale_price : ℚ
  capital_gain : ℚ
  capital_gains_tax_owed : ℚ
  net_after_tax_proceeds : ℚ
  invested_value : ℚ
  better : String

/-- One iteration of the year loop (src/verify_math.py lines 115-194),
starting from accumulator state `st`.  The home value
`purchase_price * (1 + home_appreciation/100) ^ (future_months/12)`
(line 120) is a real power with a fractional exponent; it is abstracted
as the parameter `hv`, on which every claim is independent. -/
def yearStep (I : Inputs) (hv : ℕ → ℚ) (st : LoopState) (year : ℕ) : Snapshot :=
  let future_months := I.elapsed + year * 12
  let home_value := hv year
  let loan_balance :=
    calculate_remaining_balance I.original_loan_amount I.monthly_rate
      I.total_loan_months future_months
  let equity := home_value - loan_balance
  let nrcf := net_rental_cash_flow I year
  let cumulative_rental_cash_flow :=
    if year = 0 then st.cumulative_rental_cash_flow
    else st.cumulative_rental_cash_flow + nrcf
  let year_cash_flow := if year = 0 then -I.costs_to_rent else nrcf
  let year_opportunity_cost := if 0 < year ∧ nrcf < 0 then |nrcf| else 0
  let cumulative_opportunity_cost :=
    if 0 < year then
      st.cumulative_opportunity_cost * (1 + I.investment_return / 100)
        + year_opportunity_cost
    else st.cumulative_opportunity_cost
  let rental_net_worth := equity + cumulative_rental_cash_flow
  let sale_price := home_value
  let selling_costs := sale_price * (I.selling_fees / 100) + I.costs_to_sell
  let net_sale_proceeds := sale_price - loan_balance - selling_costs
  let capital_gain := sale_price - I.purchase_price
  let capital_gains_tax_owed :=
    if 0 < capital_gain then
      (if I.is_primary_residence ∧ year ≤ 3 then
        max 0 (capital_gain - 500000)
      else capital_gain) * (I.capital_gains_tax / 100)
    else 0
  let net_after_tax_proceeds := net_sale_proceeds - capital_gains_tax_owed
  let years_to_invest := I.years_to_hold - year
  let invested_value :=
    net_after_tax_proceeds * (1 + I.investment_return / 100) ^ years_to_invest
  let better := if rental_net_worth > invested_value then "RENT" else "SELL"
  { home_value := home_value
    loan_balance := loan_balance
    equity := equity
    net_rental_cash_flow := nrcf
    year_cash_flow := year_cash_flow
    cumulative_rental_cash_flow := cumulative_rental_cash_flow
    cumulative_opportunity_cost := cumulative_opportunity_cost
    rental_net_worth := rental_net_worth
    sale_price := sale_price
    capital_gain := capital_gain
    capital_gains_tax_owed := capital_gains_tax_owed
    net_after_tax_proceeds := net_after_tax_proceeds
    invested_value := invested_value
    better := better }

/-- The accumulators carried out of one iteration. -/
def stepState (I : Inputs) (hv : ℕ → ℚ) (st : LoopState) (year : ℕ) : LoopState :=
  { cumulative_rental_cash_flow := (yearStep I hv st year).cumulative_rental_cash_flow
    cumulative_opportunity_cost := (yearStep I hv st year).cumulative_opportunity_cost }

/-- The accumulator state entering iteration `year` of the loop. -/
def stateBefore (I : Inputs) (hv : ℕ → ℚ) : ℕ → LoopState
  | 0 => initState I
  | y + 1 => stepState I hv (stateBefore I hv y) y

/-- The snapshot the loop produces for `year`. -/
def snapshotAt (I : Inputs) (hv : ℕ → ℚ) (year : ℕ) : Snapshot :=
  yearStep I hv (stateBefore I hv year) year

/-- A small concrete input bundle used to instantiate the loop theorems
in witnesses (the theorems hold for every bundle, so any concrete one
will do; small numbers keep kernel evaluation cheap). -/
def testInputs : Inputs :=
  { purchase_price := 100
    original_loan_amount := 80
    monthly_rate := 0
    total_loan_months := 300
    monthly_ownership_cost := 2
    rental_price := 3
    annual_rent_increase := 0
    property_mgmt_fee := 10
    costs_to_rent := 5
    rental_tax_rate := 20
    annual_depreciation := 1
    selling_fees := 6
    costs_to_sell := 1
    capital_gains_tax := 15
    investment_return := 7
    years_to_hold := 10
    is_primary_residence := true
    elapsed := 4 }

/-- A constant home-value curve for witnesses. -/
def testHv : ℕ → ℚ := fun _ => 200

/-- The initial accumulator state for the test bundle. -/
def testState : LoopState := initState testInputs

/-- An all-zero input bundle on which the rent-scenario net worth and the
invested value coincide, exercising the tie case of the recommendation. -/
def tieInputs : Inputs :=
  { purchase_price := 0
    original_loan_amount := 0
    monthly_rate := 0
    total_loan_months := 1
    monthly_ownership_cost := 0
    rental_price := 0
    annual_rent_increase := 0
    property_mgmt_fee := 0
    costs_to_rent := 0
    rental_tax_rate := 0
    annual_depreciation := 0
    selling_fees := 0
    costs_to_sell := 0
    capital_gains_tax := 0
    investment_return := 0
    years_to_hold := 0
    is_primary_residence := false
    elapsed := 0 }

/-- The zero home-value curve for the tie witness. -/
def tieHv : ℕ → ℚ := fun _ => 0

/-- The initial accumulator state for the tie bundle. -/
def tieState : LoopState := initState tieInputs

/-- Claim C2: in every iteration the rent-scenario net worth equals
equity plus the cumulative rental cash flow; it is independent of the
opportunity-cost accumulator (which never enters it); and for year > 0
the opportunity-cost accumulator is compounded and increased by the
year's shortfall. -/
theorem rental_net_worth_formula (I : Inputs) (hv : ℕ → ℚ) (st : LoopState)
    (year : ℕ) :
    ((yearStep I hv st year).rental_net_worth
      = (yearStep I hv st year).equity
        + (yearStep I hv st year).cumulative_rental_cash_flow)
    ∧ (∀ c c' : ℚ,
        (yearStep I hv ⟨st.cumulative_rental_cash_flow, c⟩ year).rental_net_worth
          = (yearStep I hv ⟨st.cumulative_rental_cash_flow, c'⟩ year).rental_net_worth)
    ∧ (0 < year →
        (yearStep I hv st year).cumulative_opportunity_cost
          = st.cumulative_opportunity_cost * (1 + I.investment_return / 100)
            + (if net_rental_cash_flow I year < 0
               then |net_rental_cash_flow I year| else 0)) := by
  refine ⟨by simp [yearStep], ?_, ?_⟩
  · intro c c'
    simp [yearStep]
  · intro hy
    simp [yearStep, hy]

/-- Witness for claim C2 at the test bundle, year 1, opportunity-cost
values 5 and 9. -/
theorem rental_net_worth_formula_witness :
    ((yearStep testInputs testHv testState 1).rental_net_worth
      = (yearStep testInputs testHv testState 1).equity
        + (yearStep testInputs testHv testState 1).cumulative_rental_cash_flow)
    ∧ ((yearStep testInputs testHv ⟨testState.cumulative_rental_cash_flow, 5⟩ 1).rental_net_worth
      = (yearStep testInputs testHv ⟨testState.cumulative_rental_cash_flow, 9⟩ 1).rental_net_worth)
    ∧ ((yearStep testInputs testHv testState 1).cumulative_opportunity_cost
      = testState.cumulative_opportunity_cost * (1 + testInputs.investment_return / 100)
        + (if net_rental_cash_flow testInputs 1 < 0
           then |net_rental_cash_flow testInputs 1| else 0)) :=
  ⟨(rental_net_worth_formula testInputs testHv testState 1).1,
   (rental_net_worth_formula testInputs testHv testState 1).2.1 5 9,
   (rental_net_worth_formula testInputs testHv testState 1).2.2 (by norm_num)⟩

/-- Claim C3: the capital-gains tax of every iteration is 0 when the gain
is nonpositive, and otherwise taxes `max 0 (gain - 500000)` under the
primary-residence exclusion (flag set and year at most 3) and the full
gain otherwise; in particular a positive gain under 500000 with the
exclusion active is taxed 0. -/
theorem capital_gains_tax_rule (I : Inputs) (hv : ℕ → ℚ) (st : LoopState)
    (year : ℕ) :
    ((yearStep I hv st year).capital_gains_tax_owed
      = if (yearStep I hv st year).capital_gain ≤ 0 then 0
        else (if I.is_primary_residence ∧ year ≤ 3 then
                max 0 ((yearStep I hv st year).capital_gain - 500000)
              else (yearStep I hv st year).capital_gain)
          * (I.capital_gains_tax / 100))
    ∧ (I.is_primary_residence = true → year ≤ 3 →
        0 < (yearStep I hv st year).capital_gain →
        (yearStep I hv st year).capital_gain < 500000 →
        (yearStep I hv st year).capital_gains_tax_owed = 0) := by
  constructor
  · by_cases h : (yearStep I hv st year).capital_gain ≤ 0
    · have h' : ¬ (0 < hv year - I.purchase_price) := by
        simpa [yearStep] using h
      have hle : hv year ≤ I.purchase_price := by
        have := not_lt.mp h'
        linarith
      simp [yearStep, h', hle, h]
    · have h' : 0 < hv year - I.purchase_price := by
        simpa [yearStep] using lt_of_not_le h
      have hnle : ¬ hv year ≤ I.purchase_price := by
        apply not_le.mpr
        linarith
      simp [yearStep, h', hnle, h]
  · intro hpr hy3 hpos hlt
    have h' : 0 < hv year - I.purchase_price := by
      simpa [yearStep] using hpos
    have h'' : hv year - I.purchase_price - 500000 < 0 := by
      have := hlt
      simp [yearStep] at this
      linarith
    simp [yearStep, h', hpr, hy3, max_eq_left h''.le]

/-- Witness for claim C3 at the test bundle, year 1: gain 100, exclusion
active, tax 0. -/
theorem capital_gains_tax_rule_witness :
    (yearStep testInputs testHv testState 1).capital_gains_tax_owed = 0 :=
  (capital_gains_tax_rule testInputs testHv testState 1).2 rfl (by norm_num)
    (by norm_num [yearStep, testInputs, testHv])
    (by norm_num [yearStep, testInputs, testHv])

/-- Claim C4: year 0 reports `-costs_to_rent` as its cash flow, its net
rental cash flow is not added to the accumulator, the accumulator starts
at `-costs_to_rent`, and every later year adds its net rental cash flow
to the accumulator. -/
theorem year_zero_special_case (I : Inputs) (hv : ℕ → ℚ) :
    ((snapshotAt I hv 0).year_cash_flow = -I.costs_to_rent)
    ∧ ((snapshotAt I hv 0).cumulative_rental_cash_flow = -I.costs_to_rent)
    ∧ ((initState I).cumulative_rental_cash_flow = -I.costs_to_rent)
    ∧ (∀ year : ℕ, 0 < year →
        (snapshotAt I hv year).cumulative_rental_cash_flow
          = (stateBefore I hv year).cumulative_rental_cash_flow
            + net_rental_cash_flow I year) := by
  refine ⟨by simp [snapshotAt, stateBefore, initState, yearStep], ?_, rfl, ?_⟩
  · simp [snapshotAt, stateBefore, initState, yearStep]
  · intro year hy
    simp [snapshotAt, yearStep, hy.ne']

/-- Witness for claim C4 at the test bundle, with year 2 for the
accumulation conjunct. -/
theorem year_zero_special_case_witness :
    ((snapshotAt testInputs testHv 0).year_cash_flow = -testInputs.costs_to_rent)
    ∧ ((snapshotAt testInputs testHv 0).cumulative_rental_cash_flow
        = -testInputs.costs_to_rent)
    ∧ ((initState testInputs).cumulative_rental_cash_flow
        = -testInputs.costs_to_rent)
    ∧ ((snapshotAt testInputs testHv 2).cumulative_rental_cash_flow
        = (stateBefore testInputs testHv 2).cumulative_rental_cash_flow
          + net_rental_cash_flow testInputs 2) :=
  ⟨(year_zero_special_case testInputs testHv).1,
   (year_zero_special_case testInputs testHv).2.1,
   (year_zero_special_case testInputs testHv).2.2.1,
   (year_zero_special_case testInputs testHv).2.2.2 2 (by norm_num)⟩

/-- Claim C5: every iteration recommends "RENT" exactly when the
rent-scenario net worth strictly exceeds the invested value, and "SELL"
otherwise; a tie yields "SELL". -/
theorem recommendation_rule (I : Inputs) (hv : ℕ → ℚ) (st : LoopState)
    (year : ℕ) :
    ((yearStep I hv st year).better
      = if (yearStep I hv st year).invested_value
            < (yearStep I hv st year).rental_net_worth
        then "RENT" else "SELL")
    ∧ ((yearStep I hv st year).rental_net_worth
          = (yearStep I hv st year).invested_value →
        (yearStep I hv st year).better = "SELL") := by
  constructor
  · simp [yearStep]
  · intro h
    simp [yearStep] at h ⊢
    simp [h]

/-- Witness for claim C5 at the tie bundle, year 0: the two values
coincide and the recommendation is "SELL". -/
theorem recommendation_rule_witness :
    ((yearStep tieInputs tieHv tieState 0).better
      = if (yearStep tieInputs tieHv tieState 0).invested_value
            < (yearStep tieInputs tieHv tieState 0).rental_net_worth
        then "RENT" else "SELL")
    ∧ (yearStep tieInputs tieHv tieState 0).better = "SELL" :=
  ⟨(recommendation_rule tieInputs tieHv tieState 0).1,
   (recommendation_rule tieInputs tieHv tieState 0).2
     (by norm_num [yearStep, tieInputs, tieHv, tieState, initState,
        net_rental_cash_flow, calculate_remaining_balance])⟩

/-- Claim C10: at the end of iteration `y` the cumulative cash-flow
accumulator equals `-costs_to_rent` plus the sum of the net rental cash
flows of years 1 through `y`. -/
theorem cumulative_cash_flow_invariant (I : Inputs) (hv : ℕ → ℚ) (y : ℕ) :
    (stateBefore I hv (y + 1)).cumulative_rental_cash_flow
      = -I.costs_to_rent
        + (Finset.Icc 1 y).sum (fun k => net_rental_cash_flow I k) := by
  induction y with
  | zero => simp [stateBefore, stepState, initState, yearStep]
  | succ y ih =>
    have hstep : (stateBefore I hv (y + 1 + 1)).cumulative_rental_cash_flow
        = (stateBefore I hv (y + 1)).cumulative_rental_cash_flow
          + net_rental_cash_flow I (y + 1) := by
      simp [stateBefore, stepState, yearStep]
    rw [hstep, ih, Finset.sum_Icc_succ_top (Nat.succ_le_succ (Nat.zero_le y))]
    ring

/-- Witness for claim C10 at the test bundle, year 1. -/
theorem cumulative_cash_flow_invariant_witness :
    (stateBefore testInputs testHv (1 + 1)).cumulative_rental_cash_flow
      = -testInputs.costs_to_rent
        + (Finset.Icc 1 1).sum (fun k => net_rental_cash_flow testInputs k) :=
  cumulative_cash_flow_invariant testInputs testHv 1

end VerifyMath
